import Mathlib

/-
  Shallow embedding of the async_web repository (src/exchange.py,
  src/server.py, src/async_log.py).

  Conventions of the embedding:
  - Python strings are Lean String; the string helpers used by the source
    (split, upper, isdecimal, int, join) are re-implemented structurally
    on the underlying character list so that they evaluate in the kernel,
    restricted to the ASCII inputs this program handles.
  - Network I/O is a deterministic oracle: a session maps a URL to either
    an HTTP response (status, parsed JSON body) or a connection error.
  - Python exceptions surface as Except values: PyErr.attributeError is
    the AttributeError raised when a method is looked up on a value that
    lacks it, PySetErr.keyError is the KeyError of set.remove.
  - dict values parsed from the provider JSON are modelled with Rat for
    the numeric rate payloads (the code never computes with them, it only
    copies them through).
-/

namespace AsyncWeb

/-! ## Python string primitives -/

/-- Python str.split(sep) for a one-character separator: keeps empty
pieces, and the empty string splits to a list holding one empty string. -/
def splitCh (sep : Char) : List Char → List (List Char)
  | [] => [[]]
  | c :: rest =>
    let r := splitCh sep rest
    if c = sep then [] :: r
    else
      match r with
      | [] => [[c]]
      | g :: gs => (c :: g) :: gs

def pySplit (s : String) (sep : Char) : List String :=
  (splitCh sep s.data).map String.mk

/-- Python str.upper restricted to ASCII. -/
def pyUpper (s : String) : String :=
  String.mk (s.data.map Char.toUpper)

/-- Python str.isdecimal restricted to ASCII digits: true on a non-empty
all-digit string. -/
def isdecimal (s : String) : Bool :=
  !s.data.isEmpty && s.data.all Char.isDigit

/-- Python int(s) on an all-digit string. -/
def pyInt (s : String) : Nat :=
  s.data.foldl (fun n c => n * 10 + (c.toNat - 48)) 0

/-- Python str.startswith. -/
def py_startswith (s p : String) : Bool :=
  s.data.take p.data.length == p.data

/-- Python sep.join(list). -/
def pyJoin (sep : String) : List String → String
  | [] => ""
  | [x] => x
  | x :: y :: xs => x ++ sep ++ pyJoin sep (y :: xs)

/-- Decides whether p occurs as a contiguous substring of the second
character list. -/
def subList (p : List Char) : List Char → Bool
  | [] => p.isEmpty
  | c :: rest => ((c :: rest).take p.length == p) || subList p rest

/-! ## exchange.py: module-level constants -/

def url : String := "https://api.privatbank.ua/p24api/exchange_rates?json&date="

def base_currency : List String := ["EUR", "USD"]

def MAX_DAYS : Nat := 10

/-- The distinct members of the API_CURRENCIES frozenset literal, in
first-occurrence order (the literal repeats most codes; a frozenset keeps
one copy of each). -/
def API_CURRENCIES : List String :=
  ["AUD", "AZN", "BYN", "CAD", "CHF",
   "CNY", "CZK", "DKK", "EUR", "GBP", "GEL",
   "HUF", "ILS", "JPY", "KZT", "MDL", "NOK",
   "PLN", "SEK", "SGD", "TMT", "TRY", "UAH",
   "USD", "UZS", "XAU"]

/-! ## exchange.py: provider responses -/

/-- One entry of the exchangeRate array of the provider JSON. An absent
JSON key is none. -/
structure RateEntry where
  currency : String
  saleRate : Option Rat
  saleRateNB : Option Rat
  purchaseRate : Option Rat
  purchaseRateNB : Option Rat
deriving Repr, DecidableEq

/-- The provider JSON body: its own date field, and the exchangeRate
array when present. -/
structure ApiResponse where
  date : String
  exchangeRate : Option (List RateEntry)
deriving Repr, DecidableEq

/-- A sale or purchase value in the parsed output: a copied rate, or the
literal string unavailable used as the default. -/
inductive Price where
  | val (q : Rat)
  | unavailable
deriving Repr, DecidableEq

structure Quote where
  sale : Price
  purchase : Price
deriving Repr, DecidableEq

/-- Insertion-ordered Python dict from currency code to quote. -/
abbrev RateMap := List (String × Quote)

/-- Insertion-ordered Python dict from date string to rate map. -/
abbrev DayDict := List (String × RateMap)

/-- The Python exceptions this embedding can raise. -/
inductive PyErr where
  | attributeError
deriving Repr, DecidableEq

/-- Python dict.update with one key: overwrite in place when the key is
present, append otherwise. -/
def dictUpdate (m : RateMap) (k : String) (v : Quote) : RateMap :=
  if m.any (fun p => p.1 == k) then
    m.map (fun p => if p.1 == k then (k, v) else p)
  else m ++ [(k, v)]

/-- curr.get(primary, curr.get(fallback, "unavailable")). -/
def getRate (primary fallback : Option Rat) : Price :=
  match primary with
  | some q => .val q
  | none =>
    match fallback with
    | some q => .val q
    | none => .unavailable

/-- pars_response on an actual dict argument (a parsed 200 body): cuts
the response down to the requested currencies. When the exchangeRate key
is absent it returns the still-empty accumulator dict, not a dict keyed
by the date. -/
def parsResponseJson (response : ApiResponse) (currency : List String) : DayDict :=
  match response.exchangeRate with
  | none => []
  | some rates =>
    let exchange_rate := rates.foldl
      (fun acc curr =>
        if curr.currency ∈ currency then
          dictUpdate acc curr.currency
            ⟨getRate curr.saleRate curr.saleRateNB,
             getRate curr.purchaseRate curr.purchaseRateNB⟩
        else acc) []
    [(response.date, exchange_rate)]

/-- What get_request hands to pars_response: the parsed JSON dict on a
200 response, or the error marker string on any failure. -/
inductive GetResult where
  | json (r : ApiResponse)
  | err (s : String)
deriving Repr, DecidableEq

/-- pars_response as called by exchange_rates: on a dict it behaves as
parsResponseJson; on an error marker string the attribute lookup
response.get raises AttributeError, because str has no get method. -/
def pars_response (response : GetResult) (currency : List String) :
    Except PyErr DayDict :=
  match response with
  | .json r => .ok (parsResponseJson r currency)
  | .err _ => .error .attributeError

/-! ## exchange.py: get_request and exchange_rates -/

/-- An HTTP exchange as seen by get_request. -/
structure HttpResp where
  status : Nat
  body : ApiResponse
deriving Repr, DecidableEq

/-- The transport oracle outcome for one URL: a response, or an
aiohttp.ClientConnectorError carrying its message. -/
inductive Transport where
  | resp (r : HttpResp)
  | connError (msg : String)
deriving Repr, DecidableEq

/-- get_request wrapped in the connection_errors decorator: status 200
parses the JSON body; any other status yields the status/URL marker
string; a connection error is caught by the decorator and becomes the
str of the exception. -/
def get_request (u : String) (session : String → Transport) : GetResult :=
  match session u with
  | .resp r =>
    if r.status = 200 then .json r.body
    else .err ("Error status: " ++ toString r.status ++ " for " ++ u)
  | .connError msg => .err msg

/-- The fetch-time ceiling: if days > MAX_DAYS then days = MAX_DAYS. -/
def clamp_days (days : Nat) : Nat :=
  if MAX_DAYS < days then MAX_DAYS else days

/-- The requests loop of exchange_rates: for day in range(days), append
the URL for the current date minus day, formatted by fmt (strftime on
the date, dates being modelled as day numbers). -/
def requestUrls (days : Nat) (today : Int) (fmt : Int → String) : List String :=
  (List.range days).foldl
    (fun requests (day : Nat) => requests ++ [url ++ fmt (today - (day : Int))]) []

/-- The result loop of exchange_rates: append pars_response of each
gathered course in order; the first raised exception aborts the loop and
propagates out of exchange_rates. -/
def parse_all (cources : List GetResult) (currency : List String) :
    Except PyErr (List DayDict) :=
  match cources with
  | [] => .ok []
  | c :: rest =>
    match pars_response c currency with
    | .ok d =>
      match parse_all rest currency with
      | .ok ds => .ok (d :: ds)
      | .error e => .error e
    | .error e => .error e

/-- The value and the frame effect of one exchange_rates call: the
returned list (or propagated exception), and the content of the currency
list object after the call, since currency.extend(base_currency) mutates
the caller-supplied list in place. -/
structure ExchangeResult where
  result : Except PyErr (List DayDict)
  currencyAfter : List String
deriving Repr

/-- exchange_rates: extend the currency list with the base pair, clamp
days, issue one get_request per day offset, gather in offset order, and
parse each course. -/
def exchange_rates (days : Nat) (currency : List String) (today : Int)
    (fmt : Int → String) (session : String → Transport) : ExchangeResult :=
  ⟨parse_all
      ((requestUrls (clamp_days days) today fmt).map
        (fun u => get_request u session))
      (currency ++ base_currency),
   currency ++ base_currency⟩

/-- CPython evaluates the default value of the currency parameter once,
so every call of exchange_rates that omits the argument extends the same
list object: after n such calls the shared default holds n copies of the
base pair. -/
def default_currency_after : Nat → List String
  | 0 => []
  | n + 1 => default_currency_after n ++ base_currency

/-! ## exchange.py: arg_parsing -/

def days_error : String :=
  "Invalid days count! It must be numeric value between 1 and 10"

def currency_error : String :=
  "Invalid currency! Use one of available currencies:\n" ++
    pyJoin ", " API_CURRENCIES

/-- The kwargs dict built by arg_parsing: an absent key is none. -/
structure Kwargs where
  days : Option Nat
  currency : Option (List String)
deriving Repr, DecidableEq

/-- arg_parsing: token 1, when present, must be decimal or the days
error is returned at once; token 2, when present, is upper-cased, split
on commas and checked against the allow-list. -/
def arg_parsing (args : List String) : Kwargs × String :=
  if 1 < args.length then
    if isdecimal (args.getD 1 "") then
      if 2 < args.length then
        if (pySplit (pyUpper (args.getD 2 "")) ',').all
            (fun c => API_CURRENCIES.contains c) then
          (⟨some (pyInt (args.getD 1 "")),
            some (pySplit (pyUpper (args.getD 2 "")) ',')⟩, "")
        else (⟨some (pyInt (args.getD 1 "")), none⟩, currency_error)
      else (⟨some (pyInt (args.getD 1 "")), none⟩, "")
    else (⟨none, none⟩, days_error)
  else (⟨none, none⟩, "")

/-! ## server.py: Server -/

/-- The KeyError raised by set.remove on a missing element. -/
inductive PySetErr where
  | keyError
deriving Repr, DecidableEq

/-- A failure of an individual websocket send. -/
inductive SendErr where
  | connectionClosed
deriving Repr, DecidableEq

/-- The clients set, modelled as its iteration sequence; register is
set.add (no duplicate is ever added). -/
def register (clients : List Nat) (ws : Nat) : List Nat :=
  if ws ∈ clients then clients else clients ++ [ws]

/-- unregister is self.clients.remove(ws): set.remove raises KeyError
when the element is absent. -/
def unregister (clients : List Nat) (ws : Nat) : Except PySetErr (List Nat) :=
  if ws ∈ clients then .ok (clients.erase ws) else .error .keyError

/-- send_to_clients awaits client.send(message) for each client in
iteration order, with no exception handling: the pair holds the overall
outcome (the first send exception propagates to the caller) and the list
of clients whose send completed before any failure. -/
def send_to_clients (send : Nat → String → Except SendErr Unit)
    (clients : List Nat) (message : String) :
    Except SendErr Unit × List Nat :=
  match clients with
  | [] => (.ok (), [])
  | c :: rest =>
    match send c message with
    | .ok _ =>
      let r := send_to_clients send rest message
      (r.1, c :: r.2)
    | .error e => (.error e, [])

/-- The observable effects of one message_handle call: the returned
reply, the line handed to the audit logger (none when no log call was
made), and the kwargs exchange_rates was invoked with (none when the
fetch was never invoked). The fetch itself is the rates oracle, standing
for response_to_html composed with exchange_rates. -/
structure HandleResult where
  reply : String
  audit : Option String
  fetched : Option Kwargs
deriving Repr, DecidableEq

/-- message_handle: a message starting with exchange is audit-logged
verbatim, suffixed with the result marker, parsed, and then either the
parser error or the rendered fetch result is appended; any other message
is echoed unchanged. -/
def message_handle (rates : Kwargs → String) (message user_name : String) :
    HandleResult :=
  if py_startswith message "exchange" then
    if (arg_parsing (pySplit message ' ')).2 ≠ "" then
      ⟨message ++ " result:" ++ (arg_parsing (pySplit message ' ')).2,
       some (user_name ++ ": " ++ message), none⟩
    else
      ⟨message ++ " result:" ++ rates (arg_parsing (pySplit message ' ')).1,
       some (user_name ++ ": " ++ message),
       some (arg_parsing (pySplit message ' ')).1⟩
  else ⟨message, none, none⟩

/-! ## Concrete oracles used by witnesses and counterexamples -/

/-- A strftime oracle for tests: the decimal print of the day number. -/
def fmt_test (i : Int) : String := toString i

/-- A session where the request for day 0 answers HTTP 503 and every
other request answers 200 with an empty exchangeRate array. -/
def session503 : String → Transport := fun u =>
  if u = url ++ "0" then .resp ⟨503, ⟨"x", none⟩⟩
  else .resp ⟨200, ⟨"11.10.2026", some []⟩⟩

/-- A send oracle where the send to client 1 raises and every other send
succeeds. -/
def send_fail1 : Nat → String → Except SendErr Unit :=
  fun c _ => if c = 1 then .error .connectionClosed else .ok ()

/-! ## Helper lemmas -/

theorem list_foldl_append_map (f : Nat → String) (l : List Nat) (acc : List String) :
    l.foldl (fun requests day => requests ++ [f day]) acc = acc ++ l.map f := by
  induction l generalizing acc with
  | nil => simp
  | cons x xs ih => simp [List.foldl_cons, ih]

theorem requestUrls_eq_map (days : Nat) (today : Int) (fmt : Int → String) :
    requestUrls days today fmt =
      (List.range days).map (fun (day : Nat) => url ++ fmt (today - (day : Int))) := by
  unfold requestUrls
  rw [list_foldl_append_map (fun (day : Nat) => url ++ fmt (today - (day : Int)))]
  simp

theorem clamp_days_eq_min (days : Nat) : clamp_days days = min days MAX_DAYS := by
  unfold clamp_days
  rcases Nat.lt_or_ge MAX_DAYS days with h | h
  · rw [if_pos h]; omega
  · rw [if_neg (Nat.not_lt.mpr h)]; omega

/-! ## Claim theorems -/

/-- Claim C1 (code bug witness): in a batch of two day-fetches where the
request for day offset 0 returns HTTP 503, get_request does produce the
error marker string embedding the status code and URL, but exchange_rates
then raises AttributeError instead of returning two per-day results,
because pars_response looks up the get method on the marker string. One
failing day aborts the whole batch. -/
theorem exchange_rates_error_marker_aborts_batch :
    get_request (url ++ "0") session503 =
      .err ("Error status: 503 for " ++ (url ++ "0")) ∧
    (exchange_rates 2 [] 0 fmt_test session503).result = .error .attributeError :=
  ⟨rfl, rfl⟩

/-- Claim C2 (counterexample): with clients 1 and 2 registered and the
send to client 1 failing, send_to_clients propagates the send exception
to the caller and client 2 receives nothing, contrary to the claim that
a per-connection failure neither propagates nor aborts delivery. -/
theorem send_to_clients_counterexample :
    send_to_clients send_fail1 [1, 2] "hi" = (.error .connectionClosed, []) ∧
    (send_to_clients send_fail1 [1, 2] "hi").1 ≠ .ok () := by
  refine ⟨rfl, ?_⟩
  intro h
  rw [show (send_to_clients send_fail1 [1, 2] "hi").1 =
      (Except.error SendErr.connectionClosed : Except SendErr Unit) from rfl] at h
  exact Except.noConfusion h

/-- Claim C2 (amended): a failing send propagates its exception to the
broadcast caller and aborts delivery to every client after the failing
one in iteration order; only the clients before it receive the message,
and no unregistration or logging happens in send_to_clients. -/
theorem send_to_clients_failure_propagates
    (send : Nat → String → Except SendErr Unit) (pre : List Nat) (c : Nat)
    (post : List Nat) (message : String) (e : SendErr)
    (hok : ∀ p ∈ pre, send p message = .ok ())
    (hc : send c message = .error e) :
    send_to_clients send (pre ++ c :: post) message = (.error e, pre) := by
  induction pre with
  | nil => simp [send_to_clients, hc]
  | cons p ps ih =>
    have hp : send p message = .ok () := hok p (List.mem_cons_self p ps)
    have ih2 := ih (fun q hq => hok q (List.mem_cons_of_mem p hq))
    simp [send_to_clients, hp, ih2]

/-- Claim C2 (witness for the amended theorem): client 3 succeeds, then
client 1 fails, so the exception propagates and only client 3 was
reached; client 2 is skipped. -/
theorem send_to_clients_failure_propagates_witness :
    send_to_clients send_fail1 [3, 1, 2] "hi" = (.error .connectionClosed, [3]) :=
  send_to_clients_failure_propagates send_fail1 [3] 1 [2] "hi" .connectionClosed
    (fun p hp => by
      rcases List.mem_singleton.mp hp with rfl
      rfl)
    rfl

/-- Claim C3 (counterexample): removing connection 2 from a registry
holding only connection 1 raises KeyError instead of being a no-op that
leaves the registry unchanged. -/
theorem unregister_not_noop_counterexample :
    unregister [1] 2 = .error .keyError ∧ unregister [1] 2 ≠ .ok [1] := by
  refine ⟨rfl, ?_⟩
  intro h
  rw [show unregister [1] 2 =
      (Except.error PySetErr.keyError : Except PySetErr (List Nat)) from rfl] at h
  exact Except.noConfusion h

/-- Claim C3 (amended): unregister on a connection that is not a member
raises KeyError, because set.remove raises on a missing element; on a
member it removes exactly that connection. unregister is not idempotent. -/
theorem unregister_absent_key_error (clients : List Nat) (ws : Nat) :
    (ws ∉ clients → unregister clients ws = .error .keyError) ∧
    (ws ∈ clients → unregister clients ws = .ok (clients.erase ws)) := by
  constructor <;> intro h <;> simp [unregister, h]

/-- Claim C3 (witness for the amended theorem): unregistering 5 from the
registry holding only 2 raises KeyError. -/
theorem unregister_absent_key_error_witness :
    unregister [2] 5 = .error .keyError ∧ 5 ∉ ([2] : List Nat) :=
  ⟨(unregister_absent_key_error [2] 5).1 (by decide), by decide⟩

/-- Claim C4: when the day-count token parses but the currency token
holds any code outside the allow-list, arg_parsing returns the currency
error, message_handle never invokes the fetch, the reply is the echoed
command plus the result marker plus the currency error, and that error
message contains every code of the allow-list. -/
theorem invalid_currency_rejected_no_fetch (rates : Kwargs → String)
    (message user_name a0 a1 a2 : String) (rest : List String)
    (hx : py_startswith message "exchange" = true)
    (hargs : pySplit message ' ' = a0 :: a1 :: a2 :: rest)
    (hdec : isdecimal a1 = true)
    (hbad : (pySplit (pyUpper a2) ',').all
        (fun c => API_CURRENCIES.contains c) = false) :
    (arg_parsing (pySplit message ' ')).2 = currency_error ∧
    (message_handle rates message user_name).fetched = none ∧
    (message_handle rates message user_name).reply =
      message ++ " result:" ++ currency_error ∧
    API_CURRENCIES.all (fun c => subList c.data currency_error.data) = true := by
  have hparse : arg_parsing (pySplit message ' ') =
      (⟨some (pyInt a1), none⟩, currency_error) := by
    rw [hargs]
    unfold arg_parsing
    rw [if_pos (by simp only [List.length_cons]; omega)]
    rw [show (a0 :: a1 :: a2 :: rest).getD 1 "" = a1 from rfl]
    rw [show (a0 :: a1 :: a2 :: rest).getD 2 "" = a2 from rfl]
    rw [if_pos hdec]
    rw [if_pos (by simp only [List.length_cons]; omega)]
    rw [if_neg (by rw [hbad]; exact Bool.false_ne_true)]
  have hne : currency_error ≠ "" := by decide
  have hm : message_handle rates message user_name =
      ⟨message ++ " result:" ++ currency_error,
       some (user_name ++ ": " ++ message), none⟩ := by
    unfold message_handle
    rw [if_pos hx, hparse]
    simp [hne]
  exact ⟨by rw [hparse], by rw [hm], by rw [hm], by decide⟩

/-- Claim C4 (witness): the command with currency token FOO is rejected
with the currency error and no fetch. -/
theorem invalid_currency_rejected_no_fetch_witness :
    (arg_parsing (pySplit "exchange 2 FOO" ' ')).2 = currency_error ∧
    (message_handle (fun _ => "") "exchange 2 FOO" "Bob").fetched = none ∧
    (message_handle (fun _ => "") "exchange 2 FOO" "Bob").reply =
      "exchange 2 FOO" ++ " result:" ++ currency_error ∧
    API_CURRENCIES.all (fun c => subList c.data currency_error.data) = true :=
  invalid_currency_rejected_no_fetch (fun _ => "") "exchange 2 FOO" "Bob"
    "exchange" "2" "FOO" [] (by decide) (by decide) (by decide) (by decide)

/-- Claim C5: a day count above MAX_DAYS is silently clamped at fetch
time, so exchange_rates behaves identically to a call with exactly
MAX_DAYS, for every currency list, date and session. -/
theorem exchange_rates_clamp (days : Nat) (currency : List String) (today : Int)
    (fmt : Int → String) (session : String → Transport) (h : MAX_DAYS < days) :
    exchange_rates days currency today fmt session =
      exchange_rates MAX_DAYS currency today fmt session := by
  have h1 : clamp_days days = MAX_DAYS := by
    unfold clamp_days
    rw [if_pos h]
  have h2 : clamp_days MAX_DAYS = MAX_DAYS := by
    unfold clamp_days
    rw [if_neg (by omega)]
  unfold exchange_rates
  rw [h1, h2]

/-- Claim C5 (witness): eleven requested days behave as ten. -/
theorem exchange_rates_clamp_witness :
    exchange_rates 11 [] 0 fmt_test session503 =
      exchange_rates MAX_DAYS [] 0 fmt_test session503 :=
  exchange_rates_clamp 11 [] 0 fmt_test session503 (by decide)

/-- Claim C6 (counterexample): for the command exchange abc the reply is
not the original text plus the exact days error, because message_handle
inserts the result marker between them. -/
theorem invalid_days_reply_counterexample :
    (message_handle (fun _ => "") "exchange abc" "Bob").reply ≠
      "exchange abc" ++ days_error := by decide

/-- Claim C6 (amended): for every exchange command whose day-count token
is present but not decimal, the reply is the original text plus the
result marker plus the exact days error, no fetch is invoked, and the
raw command is still handed to the audit logger. -/
theorem invalid_days_reply (rates : Kwargs → String)
    (message user_name a0 a1 : String) (rest : List String)
    (hx : py_startswith message "exchange" = true)
    (hargs : pySplit message ' ' = a0 :: a1 :: rest)
    (hdec : isdecimal a1 = false) :
    message_handle rates message user_name =
      ⟨message ++ " result:" ++ days_error,
        some (user_name ++ ": " ++ message), none⟩ := by
  have hparse : arg_parsing (pySplit message ' ') = (⟨none, none⟩, days_error) := by
    rw [hargs]
    unfold arg_parsing
    rw [if_pos (by simp only [List.length_cons]; omega)]
    rw [show (a0 :: a1 :: rest).getD 1 "" = a1 from rfl]
    rw [if_neg (by rw [hdec]; exact Bool.false_ne_true)]
  have hne : days_error ≠ "" := by decide
  unfold message_handle
  rw [if_pos hx, hparse]
  simp [hne]

/-- Claim C6 (witness for the amended theorem): the command exchange abc
is echoed with the result marker and the days error, is audit-logged
verbatim, and triggers no fetch. -/
theorem invalid_days_reply_witness :
    message_handle (fun _ => "") "exchange abc" "Bob" =
      ⟨"exchange abc" ++ " result:" ++ days_error,
        some ("Bob" ++ ": " ++ "exchange abc"), none⟩ :=
  invalid_days_reply (fun _ => "") "exchange abc" "Bob" "exchange" "abc" []
    (by decide) (by decide) (by decide)

/-- Claim C7: parsing a 200 response without an exchangeRate key yields
the empty dict, and parsing one whose exchangeRate array is empty yields
the dict holding the response date mapped to an empty rate map; neither
is an error. -/
theorem pars_response_empty_cases (r : ApiResponse) (currency : List String) :
    (r.exchangeRate = none → pars_response (.json r) currency = .ok []) ∧
    (r.exchangeRate = some [] →
      pars_response (.json r) currency = .ok [(r.date, [])]) := by
  constructor <;> intro h <;> simp [pars_response, parsResponseJson, h]

/-- Claim C7 (witness): both empty cases at a concrete response. -/
theorem pars_response_empty_cases_witness :
    pars_response (.json ⟨"12.10.2026", none⟩) [] = .ok [] ∧
    pars_response (.json ⟨"12.10.2026", some []⟩) ["USD"] =
      .ok [("12.10.2026", [])] :=
  ⟨(pars_response_empty_cases ⟨"12.10.2026", none⟩ []).1 rfl,
   (pars_response_empty_cases ⟨"12.10.2026", some []⟩ ["USD"]).2 rfl⟩

/-- Claim C8: for the clamped day count, exchange_rates builds exactly
one request URL per offset 0..min(days, MAX_DAYS)-1, each the endpoint
concatenated with the formatted date of today minus the offset, most
recent first, and the gathered results are parsed in that original
offset order. -/
theorem exchange_rates_request_order (days : Nat) (currency : List String)
    (today : Int) (fmt : Int → String) (session : String → Transport) :
    requestUrls (clamp_days days) today fmt =
      (List.range (min days MAX_DAYS)).map
        (fun (day : Nat) => url ++ fmt (today - (day : Int))) ∧
    (requestUrls (clamp_days days) today fmt).length = min days MAX_DAYS ∧
    (exchange_rates days currency today fmt session).result =
      parse_all
        ((requestUrls (clamp_days days) today fmt).map
          (fun u => get_request u session))
        (currency ++ base_currency) := by
  refine ⟨?_, ?_, rfl⟩
  · rw [requestUrls_eq_map, clamp_days_eq_min]
  · rw [requestUrls_eq_map, clamp_days_eq_min]
    rw [List.length_map, List.length_range]

/-- Claim C9: exchange_rates extends its currency argument in place with
the base pair, so the caller-supplied list is modified after the call;
and since the default list object is evaluated once and shared, after n
calls that omit the argument the shared default holds n copies of the
base pair, growing without bound. -/
theorem exchange_rates_currency_mutation (days : Nat) (currency : List String)
    (today : Int) (fmt : Int → String) (session : String → Transport) (n : Nat) :
    (exchange_rates days currency today fmt session).currencyAfter =
      currency ++ ["EUR", "USD"] ∧
    default_currency_after (n + 1) = default_currency_after n ++ base_currency ∧
    (default_currency_after n).length = 2 * n := by
  refine ⟨rfl, rfl, ?_⟩
  induction n with
  | zero => rfl
  | succ k ih =>
    simp [default_currency_after, base_currency, ih]
    omega

/-- Claim C10: the parser accepts the day-count token 0 with no error,
since isdecimal admits it and no lower bound is checked, and
exchange_rates with days 0 builds no request URL and returns the empty
list rather than a validation error. -/
theorem zero_days_accepted (currency : List String) (today : Int)
    (fmt : Int → String) (session : String → Transport) :
    arg_parsing ["exchange", "0"] = (⟨some 0, none⟩, "") ∧
    (exchange_rates 0 currency today fmt session).result = .ok [] ∧
    requestUrls (clamp_days 0) today fmt = [] :=
  ⟨rfl, rfl, rfl⟩

end AsyncWeb
